import Mathlib

/-!
Verification of the codex dual-window bridge (`codex_dual_bridge.py`).

The Python source is shallowly embedded: pure string manipulation becomes
Lean functions on `String`/`List Char`, JSON values parsed by `json.loads`
become the inductive `Json`, the stateful bridge loop becomes an explicit
step function on a `BState` record driven by per-iteration environment
records (`IterEnv`), and Python exceptions become `Except String`.
Python floats only ever flow through `min`, `max` and doubling here, all of
which are exact in binary floating point (no rounding), so durations are
modelled as rationals.
-/

namespace CodexBridge

/-- Python `min(a, b)` on two numbers (kernel-reducible; equal to
Mathlib `min` by `pymin_eq`). -/
def pymin (a b : ℚ) : ℚ :=
  if a ≤ b then a else b

/-- Python `max(a, b)` on two numbers (kernel-reducible; equal to
Mathlib `max` by `pymax_eq`). -/
def pymax (a b : ℚ) : ℚ :=
  if a ≤ b then b else a

/-- A JSON value as returned by `json.loads`.  Numbers are modelled as
integers (the bridge never manipulates fractional payload numbers).
An `obj` models a parsed Python dict: keys are unique after parsing, and
lookup returns the binding of the requested key. -/
inductive Json where
  | null : Json
  | bool (b : Bool) : Json
  | num (n : Int) : Json
  | str (s : String) : Json
  | arr (elems : List Json) : Json
  | obj (fields : List (String × Json)) : Json

/-- Python truthiness of a value obtained from `json.loads`, as used by
`payload.get("marker") or self._generate_marker()` (line 126). -/
def jsonTruthy : Json → Bool
  | .null => false
  | .bool b => b
  | .num n => n != 0
  | .str s => s != ""
  | .arr xs => !xs.isEmpty
  | .obj kvs => !kvs.isEmpty

/-- `d.get(key)` on a parsed dict (returns `none` where Python returns
`None` for a missing key). -/
def pyGet : List (String × Json) → String → Option Json
  | [], _ => none
  | (k, v) :: rest, key => if k = key then some v else pyGet rest key

/-- Characters stripped by Python `str.strip()` (the ASCII whitespace
set; the bridge never feeds it exotic Unicode whitespace). -/
def isPySpace (c : Char) : Bool :=
  c == ' ' || c == '\t' || c == '\n' || c == '\r' || c == Char.ofNat 11 || c == Char.ofNat 12

/-- `str.strip()` on the character list of a string. -/
def pyStripList (l : List Char) : List Char :=
  ((l.dropWhile isPySpace).reverse.dropWhile isPySpace).reverse

/-- Python `text.strip()`. -/
def pyStrip (s : String) : String :=
  ⟨pyStripList s.data⟩

/-- Python `text.replace(old, new)` for single-character `old`/`new`
(the only form the bridge uses). -/
def pyReplaceChar (s : String) (old new : Char) : String :=
  ⟨s.data.map (fun c => if c = old then new else c)⟩

/-- The decimal digit character for `d < 10`. -/
def digitChar (d : Nat) : Char :=
  Char.ofNat (48 + d)

/-- Fuel-driven decimal rendering of a natural number (most significant
digit first); total and kernel-reducible.  `natDigits` supplies enough
fuel. -/
def natDigitsAux : Nat → Nat → List Char
  | 0, _ => []
  | fuel + 1, n =>
    if n < 10 then [digitChar n]
    else natDigitsAux fuel (n / 10) ++ [digitChar (n % 10)]

/-- The decimal digits of `n`, as rendered by a Python f-string for a
nonnegative int. -/
def natDigits (n : Nat) : List Char :=
  natDigitsAux (n + 1) n

/-- Reads a digit string back as a number; used to prove `natDigits`
injective. -/
def digitsVal (l : List Char) : Nat :=
  l.foldl (fun a c => 10 * a + (c.toNat - 48)) 0

/-- `DualBridge._generate_marker` (line 166):
`f"ask-{int(time.time())}-{os.getpid()}"`, with the unix seconds and the
process id as explicit inputs. -/
def generate_marker (sec pid : Nat) : String :=
  String.mk ("ask-".data ++ natDigits sec ++ "-".data ++ natDigits pid)

/-- Lower-case hexadecimal digit, for JSON string escapes. -/
def hexDigit (n : Nat) : Char :=
  if n < 10 then Char.ofNat (48 + n) else Char.ofNat (87 + n)

/-- JSON escaping of one character as done by `json.dumps` with
`ensure_ascii=False`. -/
def escapeChar (c : Char) : List Char :=
  if c = '\"' then ['\\', '\"']
  else if c = '\\' then ['\\', '\\']
  else if c = '\n' then ['\\', 'n']
  else if c = '\r' then ['\\', 'r']
  else if c = '\t' then ['\\', 't']
  else if c = Char.ofNat 8 then ['\\', 'b']
  else if c = Char.ofNat 12 then ['\\', 'f']
  else if c.toNat < 32 then ['\\', 'u', '0', '0', hexDigit (c.toNat / 16), hexDigit (c.toNat % 16)]
  else [c]

/-- JSON escaping of a whole string. -/
def escapeString (s : String) : String :=
  ⟨(s.data.map escapeChar).flatten⟩

/-- `json.dumps(value, ensure_ascii=False)` with the default `", "` and
`": "` separators, as used for the bridge-log trace line. -/
def jsonDumps : Json → String
  | .null => "null"
  | .bool b => if b then "true" else "false"
  | .num n => toString n
  | .str s => "\"" ++ escapeString s ++ "\""
  | .arr xs =>
    "[" ++ String.intercalate ", " (xs.attach.map (fun x => jsonDumps x.1)) ++ "]"
  | .obj kvs =>
    "\x7b" ++
      String.intercalate ", "
        (kvs.attach.map (fun kv => "\"" ++ escapeString kv.1.1 ++ "\": " ++ jsonDumps kv.1.2)) ++
      "\x7d"
decreasing_by
  · have h := List.sizeOf_lt_of_mem x.2
    simp only [Json.arr.sizeOf_spec]
    omega
  · have h := List.sizeOf_lt_of_mem kv.2
    have h2 : sizeOf kv.1.2 < sizeOf kv.1 := by
      obtain ⟨a, b⟩ := kv.1
      simp only [Prod.mk.sizeOf_spec]
      omega
    simp only [Json.obj.sizeOf_spec]
    omega

/-- `TerminalCodexSession.send`, the normalization part (line 41):
`text.replace("\r", " ").replace("\n", " ").strip()`. -/
def send_command (text : String) : String :=
  pyStrip (pyReplaceChar (pyReplaceChar text '\r' ' ') '\n' ' ')

/-- `TerminalCodexSession.send` (lines 40-43): returns the text the
backend receives, or `none` when the normalized command is empty and the
backend is not invoked. -/
def send (text : String) : Option String :=
  let command := send_command text
  if command = "" then none else some command

/-- One line of the history file `session.jsonl`
(`DualBridge._append_history`, lines 140-145).  The marker and the content
are whatever Python values the request carried, hence `Json`. -/
structure HEntry where
  timestamp : String
  role : String
  marker : Json
  content : Json

/-- The observable state of one `DualBridge` process: the running flag,
the current error backoff, the history file, the bridge log, the console
output, the texts delivered to the terminal backend, and the error-backoff
sleep durations performed so far. -/
structure BState where
  running : Bool
  backoff : ℚ
  history : List HEntry
  bridge_log : List String
  console : List String
  sent : List String
  err_sleeps : List ℚ

/-- The three durations read from the environment in `DualBridge.run`
(lines 86-88). -/
structure Config where
  idle_sleep : ℚ
  error_backoff_min : ℚ
  error_backoff_max : ℚ

/-- `_env_float` (lines 21-29): `raw = none` covers both a missing and an
unparseable environment value (both yield the default); a parsed value is
clamped to be nonnegative. -/
def env_float (raw : Option ℚ) (default : ℚ) : ℚ :=
  match raw with
  | none => default
  | some v => pymax 0 v

/-- Environment of one `_process_request` call: the clock and pid behind
`_generate_marker` and the timestamps, plus the outcome of each fallible
side effect (backend send, the two possible history writes, the
bridge-log write).  `none`/`false` means the effect succeeds; `some e`
means it raises with message `e`. -/
structure DispatchEnv where
  sec : Nat
  pid : Nat
  ts_local : String
  ts_utc : String
  ts_utc2 : String
  send_exc : Option String
  hist_fail1 : Option String
  hist_fail2 : Option String
  log_fail : Bool

/-- What `_read_request` (lines 112-122) encounters on one call. -/
inductive ChanEvent where
  | absent      : ChanEvent
  | open_error  : ChanEvent
  | empty_line  : ChanEvent
  | malformed   : ChanEvent
  | read_error (msg : String) : ChanEvent
  | interrupt   : ChanEvent
  | line (payload : Json) : ChanEvent

/-- Result of one poll of the channel as seen by the loop body. -/
inductive ReadResult where
  | got (payload : Json) : ReadResult
  | nothing : ReadResult
  | raised (msg : String) : ReadResult
  | interrupted : ReadResult

/-- Environment of one loop iteration. -/
structure IterEnv where
  chan : ChanEvent
  denv : DispatchEnv
  ts_err : String
  err_log_fail : Bool

/-- `DualBridge._read_request` (lines 112-122): a missing fifo, an
`OSError` on open, an empty line and a `json.JSONDecodeError` all yield
`None`; any other exception while reading (e.g. a `UnicodeDecodeError`)
escapes; a complete line yields its parsed payload.  A
`KeyboardInterrupt` in the body surfaces as `interrupted`. -/
def read_request : ChanEvent → ReadResult
  | .absent => .nothing
  | .open_error => .nothing
  | .empty_line => .nothing
  | .malformed => .nothing
  | .read_error e => .raised e
  | .interrupt => .interrupted
  | .line p => .got p

/-- `DualBridge._append_history` (lines 139-151): on success the entry is
appended to the history file; any exception is caught and reported on the
console only. -/
def append_history (ts : String) (wfail : Option String) (role : String)
    (content marker : Json) (st : BState) : BState :=
  match wfail with
  | none =>
    { st with history := st.history ++ [⟨ts, role, marker, content⟩] }
  | some e =>
    { st with console := st.console ++ ["⚠️ Failed to write history: " ++ e] }

/-- `DualBridge._log_bridge` (lines 153-158): on success one timestamped
line is appended to the bridge log; any exception is swallowed silently
(`except Exception: pass`). -/
def log_bridge (ts : String) (wfail : Bool) (message : String) (st : BState) : BState :=
  if wfail then st
  else { st with bridge_log := st.bridge_log ++ [ts ++ " " ++ message] }

/-- Line 126: `payload.get("marker") or self._generate_marker()`. -/
def resolve_marker (env : DispatchEnv) (kvs : List (String × Json)) : Json :=
  match pyGet kvs "marker" with
  | some v => if jsonTruthy v then v else Json.str (generate_marker env.sec env.pid)
  | none => Json.str (generate_marker env.sec env.pid)

/-- The `self.codex_session.send(content)` call on line 133: returns the
text delivered to the backend (if any) and the exception raised (if any).
A non-string content raises `AttributeError` inside `send`
(`text.replace` on a non-str); an empty normalized command skips the
backend; otherwise the backend call behaves as `send_exc` dictates. -/
def send_attempt (send_exc : Option String) (content : Json) : Option String × Option String :=
  match content with
  | .str s =>
    match send s with
    | none => (none, none)
    | some cmd =>
      match send_exc with
      | none => (some cmd, none)
      | some e => (none, some e)
  | _ => (none, some "AttributeError: replace")

/-- `DualBridge._process_request` (lines 124-137).  A non-dict payload
raises `AttributeError` at `payload.get` before any side effect; for a
dict payload the trace line, the sender history entry and the backend
send happen in order, and a backend exception is converted into a target
history entry plus a console message. -/
def process_request (env : DispatchEnv) (payload : Json) (st : BState) :
    Except String BState :=
  match payload with
  | .obj kvs =>
    let content := (pyGet kvs "content").getD (Json.str "")
    let marker := resolve_marker env kvs
    let st1 := log_bridge env.ts_local env.log_fail
      (jsonDumps (Json.obj [("marker", marker), ("question", content), ("time", Json.str env.ts_local)])) st
    let st2 := append_history env.ts_utc env.hist_fail1 "claude" content marker st1
    match send_attempt env.send_exc content with
    | (delivered, none) =>
      Except.ok { st2 with sent := st2.sent ++ delivered.toList }
    | (delivered, some e) =>
      let msg := "❌ Failed to send to Codex: " ++ e
      let st3 := { st2 with sent := st2.sent ++ delivered.toList }
      let st4 := append_history env.ts_utc2 env.hist_fail2 "codex" (Json.str msg) marker st3
      Except.ok { st4 with console := st4.console ++ [msg] }
  | _ => Except.error "AttributeError: get"

/-- Line 107: `error_backoff = min(error_backoff_max, max(error_backoff_min,
error_backoff * 2))`, guarded by `if error_backoff_max:`. -/
def grow_backoff (cfg : Config) (b : ℚ) : ℚ :=
  if cfg.error_backoff_max ≠ 0 then
    pymin cfg.error_backoff_max (pymax cfg.error_backoff_min (2 * b))
  else b

/-- Lines 89 and 98: `max(0.0, min(error_backoff_min, error_backoff_max))`,
used both as the initial backoff and as the reset after a processed
request. -/
def reset_backoff (cfg : Config) : ℚ :=
  pymax 0 (pymin cfg.error_backoff_min cfg.error_backoff_max)

/-- The `except Exception` arm of the loop (lines 101-107): console and
bridge-log error lines, a sleep of the current backoff (recorded in
`err_sleeps`; skipped when the backoff is zero, `if error_backoff:`),
then exponential growth capped at the maximum. -/
def error_step (cfg : Config) (env : IterEnv) (e : String) (st : BState) : BState :=
  let st1 := { st with console := st.console ++ ["❌ Failed to process message: " ++ e] }
  let st2 := log_bridge env.ts_err env.err_log_fail ("error: " ++ e) st1
  let st3 :=
    if st2.backoff ≠ 0 then { st2 with err_sleeps := st2.err_sleeps ++ [st2.backoff] }
    else st2
  { st3 with backoff := grow_backoff cfg st3.backoff }

/-- One iteration of `DualBridge.run` (lines 90-107).  With the flag
down the loop body does not run; `None` from the poll takes the idle
path (state untouched, only an idle sleep); a payload is dispatched and,
on normal return, the backoff resets; an exception escaping the body is
handled by `error_step`; a `KeyboardInterrupt` lowers the flag. -/
def run_step (cfg : Config) (env : IterEnv) (st : BState) : BState :=
  if st.running then
    match read_request env.chan with
    | .interrupted => { st with running := false }
    | .nothing => st
    | .raised e => error_step cfg env e st
    | .got p =>
      match process_request env.denv p st with
      | .ok st1 => { st1 with backoff := reset_backoff cfg }
      | .error e => error_step cfg env e st
  else st

/-- The state right after `DualBridge.run` initializes `error_backoff`
(line 89), before the first iteration. -/
def init_state (cfg : Config) : BState :=
  { running := true, backoff := reset_backoff cfg, history := [], bridge_log := [],
    console := [], sent := [], err_sleeps := [] }

/-- A run of the bridge loop over a finite schedule of per-iteration
environments. -/
def run_bridge (cfg : Config) (envs : List IterEnv) : BState :=
  envs.foldl (fun st env => run_step cfg env st) (init_state cfg)

/-- Normalization as the specification words it: collapse carriage
returns and newlines to single spaces, then trim leading and trailing
whitespace.  Stated independently of `send_command` to compare the two. -/
def normalize_spec (s : String) : String :=
  ⟨pyStripList (s.data.map (fun c => if c = '\r' ∨ c = '\n' then ' ' else c))⟩

/-- The specification property on a sequence of error-backoff sleeps:
non-decreasing, each at most double its predecessor, each capped at the
configured maximum. -/
def sleepsOk (bmax : ℚ) : List ℚ → Prop
  | [] => True
  | [s] => s ≤ bmax
  | s :: t :: rest => s ≤ bmax ∧ s ≤ t ∧ t ≤ 2 * s ∧ sleepsOk bmax (t :: rest)

/-- An iteration whose channel read raises (a loop-body error). -/
def IsErrEnv (env : IterEnv) : Prop :=
  ∃ e, read_request env.chan = ReadResult.raised e

/-- The sequence of backoff values that seed the sleeps of `k`
consecutive error iterations starting from backoff `b` (a zero backoff
performs no sleep, `if error_backoff:`). -/
def errSleepsSeq (cfg : Config) : Nat → ℚ → List ℚ
  | 0, _ => []
  | k + 1, b => (if b ≠ 0 then [b] else []) ++ errSleepsSeq cfg k (grow_backoff cfg b)

/-- A well-behaved configuration (all durations nonnegative, backoff
minimum below maximum), e.g. from `CCB_BRIDGE_ERROR_BACKOFF_MIN=1`,
`CCB_BRIDGE_ERROR_BACKOFF_MAX=4`. -/
def cfg0 : Config :=
  { idle_sleep := 1, error_backoff_min := 1, error_backoff_max := 4 }

/-- A legal configuration (both overrides nonnegative, hence accepted by
`_env_float`) whose backoff minimum exceeds its maximum, e.g. from
`CCB_BRIDGE_ERROR_BACKOFF_MIN=5`, `CCB_BRIDGE_ERROR_BACKOFF_MAX=2`. -/
def cfgBad : Config :=
  { idle_sleep := 1, error_backoff_min := 5, error_backoff_max := 2 }

/-- A dispatch environment in which every side effect succeeds. -/
def denv0 : DispatchEnv :=
  { sec := 1700000000, pid := 4242, ts_local := "2026-10-12 00:00:00",
    ts_utc := "2026-10-12T00:00:00+00:00", ts_utc2 := "2026-10-12T00:00:01+00:00",
    send_exc := none, hist_fail1 := none, hist_fail2 := none, log_fail := false }

/-- A dispatch environment whose backend send raises. -/
def denvFail : DispatchEnv :=
  { denv0 with send_exc := some "boom" }

/-- The state at loop entry under the default-like configuration. -/
def st0 : BState :=
  init_state cfg0

/-- An iteration that finds the fifo missing. -/
def envAbs : IterEnv :=
  { chan := ChanEvent.absent, denv := denv0, ts_err := "t", err_log_fail := false }

/-- An iteration that reads a malformed line. -/
def envMal : IterEnv :=
  { chan := ChanEvent.malformed, denv := denv0, ts_err := "t", err_log_fail := false }

/-- An iteration whose channel read raises. -/
def envErr : IterEnv :=
  { chan := ChanEvent.read_error "boom", denv := denv0, ts_err := "t", err_log_fail := false }

/-- A well-formed request payload without a marker. -/
def payHi : Json :=
  Json.obj [("content", Json.str "hi")]

/-- An iteration that reads `payHi` and dispatches it successfully. -/
def envSucc : IterEnv :=
  { chan := ChanEvent.line payHi, denv := denv0, ts_err := "t", err_log_fail := false }

section ComponentLemmas

theorem pymin_eq (a b : ℚ) : pymin a b = min a b := by
  rw [pymin, min_def]

theorem pymax_eq (a b : ℚ) : pymax a b = max a b := by
  rw [pymax, max_def]

theorem log_bridge_history (ts : String) (f : Bool) (m : String) (st : BState) :
    (log_bridge ts f m st).history = st.history := by
  by_cases h : f <;> simp [log_bridge, h]

theorem log_bridge_console (ts : String) (f : Bool) (m : String) (st : BState) :
    (log_bridge ts f m st).console = st.console := by
  by_cases h : f <;> simp [log_bridge, h]

theorem log_bridge_backoff (ts : String) (f : Bool) (m : String) (st : BState) :
    (log_bridge ts f m st).backoff = st.backoff := by
  by_cases h : f <;> simp [log_bridge, h]

theorem log_bridge_running (ts : String) (f : Bool) (m : String) (st : BState) :
    (log_bridge ts f m st).running = st.running := by
  by_cases h : f <;> simp [log_bridge, h]

theorem log_bridge_err_sleeps (ts : String) (f : Bool) (m : String) (st : BState) :
    (log_bridge ts f m st).err_sleeps = st.err_sleeps := by
  by_cases h : f <;> simp [log_bridge, h]

theorem log_bridge_sent (ts : String) (f : Bool) (m : String) (st : BState) :
    (log_bridge ts f m st).sent = st.sent := by
  by_cases h : f <;> simp [log_bridge, h]

theorem append_history_backoff (ts : String) (w : Option String) (r : String)
    (c m : Json) (st : BState) :
    (append_history ts w r c m st).backoff = st.backoff := by
  cases w <;> simp [append_history]

theorem append_history_running (ts : String) (w : Option String) (r : String)
    (c m : Json) (st : BState) :
    (append_history ts w r c m st).running = st.running := by
  cases w <;> simp [append_history]

theorem append_history_err_sleeps (ts : String) (w : Option String) (r : String)
    (c m : Json) (st : BState) :
    (append_history ts w r c m st).err_sleeps = st.err_sleeps := by
  cases w <;> simp [append_history]

/-- A dict payload never escapes `_process_request`. -/
theorem process_request_obj_total (env : DispatchEnv) (kvs : List (String × Json))
    (st : BState) : ∃ st2, process_request env (Json.obj kvs) st = Except.ok st2 := by
  unfold process_request
  rcases h : send_attempt env.send_exc ((pyGet kvs "content").getD (Json.str "")) with ⟨d, exc⟩
  cases exc <;> simp [h]

/-- `_process_request` never touches the backoff, the running flag or the
recorded sleeps. -/
theorem process_request_frame (env : DispatchEnv) (p : Json) (st st2 : BState)
    (h : process_request env p st = Except.ok st2) :
    st2.backoff = st.backoff ∧ st2.running = st.running ∧
      st2.err_sleeps = st.err_sleeps := by
  cases p with
  | obj kvs =>
    simp only [process_request] at h
    rcases hs : send_attempt env.send_exc ((pyGet kvs "content").getD (Json.str "")) with ⟨d, exc⟩
    rw [hs] at h
    cases exc with
    | none =>
      simp only [Except.ok.injEq] at h
      subst h
      simp [append_history_backoff, append_history_running, append_history_err_sleeps,
        log_bridge_backoff, log_bridge_running, log_bridge_err_sleeps]
    | some e =>
      simp only [Except.ok.injEq] at h
      subst h
      simp [append_history_backoff, append_history_running, append_history_err_sleeps,
        log_bridge_backoff, log_bridge_running, log_bridge_err_sleeps]
  | null => simp [process_request] at h
  | bool b => simp [process_request] at h
  | num n => simp [process_request] at h
  | str s => simp [process_request] at h
  | arr xs => simp [process_request] at h

/-- Effect of the error arm on backoff, sleeps and the running flag. -/
theorem error_step_spec (cfg : Config) (env : IterEnv) (e : String) (st : BState) :
    (error_step cfg env e st).backoff = grow_backoff cfg st.backoff ∧
    (error_step cfg env e st).err_sleeps =
      st.err_sleeps ++ (if st.backoff ≠ 0 then [st.backoff] else []) ∧
    (error_step cfg env e st).running = st.running ∧
    (error_step cfg env e st).history = st.history := by
  unfold error_step
  by_cases hb : st.backoff = 0 <;>
    simp [hb, log_bridge_backoff, log_bridge_err_sleeps, log_bridge_running,
      log_bridge_history, log_bridge_console]

end ComponentLemmas

section Normalization

/-- Replacing carriage returns and then newlines by spaces is the single
pass the specification describes. -/
theorem send_command_eq_spec (text : String) :
    send_command text = normalize_spec text := by
  have hfun : (fun c => if c = '\n' then ' ' else c) ∘ (fun c => if c = '\r' then ' ' else c)
      = fun c => if c = '\r' ∨ c = '\n' then ' ' else c := by
    funext c
    by_cases h1 : c = '\r' <;> by_cases h2 : c = '\n' <;> simp [h1, h2, Function.comp]
  show pyStrip ⟨(⟨text.data.map _⟩ : String).data.map _⟩ = _
  rw [normalize_spec, pyStrip]
  show (⟨pyStripList ((text.data.map _).map _)⟩ : String) = _
  rw [List.map_map, hfun]

/-- Claim C5: command normalization maps each carriage return and newline
to a space and trims surrounding whitespace; `"hello\nworld"` reaches the
backend as `"hello world"`; and the backend is not invoked exactly when
the normalized text is empty. -/
theorem c5_send_normalizes (text : String) :
    (send text = none ↔ normalize_spec text = "") ∧
    (∀ cmd, send text = some cmd → cmd = normalize_spec text) ∧
    send "hello\nworld" = some "hello world" := by
  have h := send_command_eq_spec text
  refine ⟨?_, ?_, rfl⟩
  · rw [send, h]
    by_cases hz : normalize_spec text = "" <;> simp [hz]
  · intro cmd hcmd
    rw [send, h] at hcmd
    by_cases hz : normalize_spec text = "" <;> simp [hz] at hcmd
    exact hcmd.symm

/-- Witness for C5 at a concrete input. -/
theorem c5_send_normalizes_witness :
    ("hi there" : String) = normalize_spec "  hi\nthere " :=
  (c5_send_normalizes "  hi\nthere ").2.1 "hi there" rfl

end Normalization

section ChannelClaims

/-- Claim C6: when the fifo is absent or the line is malformed, the poll
returns Absent without raising and the loop iteration leaves the whole
state (history, console, and in particular the backoff) untouched. -/
theorem c6_absent_or_malformed_idle (cfg : Config) (env : IterEnv) (st : BState)
    (h : env.chan = ChanEvent.absent ∨ env.chan = ChanEvent.malformed) :
    read_request env.chan = ReadResult.nothing ∧ run_step cfg env st = st := by
  have hr : read_request env.chan = ReadResult.nothing := by
    rcases h with h | h <;> rw [h] <;> rfl
  refine ⟨hr, ?_⟩
  unfold run_step
  by_cases hrun : st.running <;> simp [hrun, hr]

/-- Witness for C6 at a concrete absent-channel iteration. -/
theorem c6_absent_or_malformed_idle_witness :
    read_request envAbs.chan = ReadResult.nothing ∧ run_step cfg0 envAbs st0 = st0 :=
  c6_absent_or_malformed_idle cfg0 envAbs st0 (Or.inl rfl)

end ChannelClaims

section LoggerClaims

/-- Claim C8 (amended): a failing history write is caught and reported on
the console without touching the history or the loop state, while a
failing bridge-log write is caught but swallowed silently (`except
Exception: pass`), not reported to the console; neither failure
terminates the loop. -/
theorem c8_amended (st : BState) (ts role msg e : String) (content marker : Json) :
    (append_history ts (some e) role content marker st).history = st.history ∧
    (append_history ts (some e) role content marker st).console
      = st.console ++ ["⚠️ Failed to write history: " ++ e] ∧
    (append_history ts (some e) role content marker st).running = st.running ∧
    (append_history ts (some e) role content marker st).backoff = st.backoff ∧
    log_bridge ts true msg st = st :=
  ⟨rfl, rfl, rfl, rfl, rfl⟩

/-- Claim C8 counterexample: a failing bridge-log write starting from an
empty console leaves the console empty — the failure is swallowed
silently, not reported to the console as the claim states. -/
theorem c8_counterexample :
    (log_bridge "t" true "error: boom" st0).console = [] ∧
    (log_bridge "t" true "error: boom" st0).bridge_log = [] :=
  ⟨rfl, rfl⟩

end LoggerClaims

section MarkerResolution

/-- Claim C10: a present-but-falsy marker (the empty string) is discarded
in favour of a freshly generated marker, and the whole dispatch behaves
exactly as if the marker field had been absent. -/
theorem c10_falsy_marker (env : DispatchEnv) (rest : List (String × Json)) (st : BState)
    (hrest : pyGet rest "marker" = none) :
    resolve_marker env (("marker", Json.str "") :: rest)
      = Json.str (generate_marker env.sec env.pid) ∧
    process_request env (Json.obj (("marker", Json.str "") :: rest)) st
      = process_request env (Json.obj rest) st := by
  have hm : resolve_marker env (("marker", Json.str "") :: rest)
      = Json.str (generate_marker env.sec env.pid) := by
    simp [resolve_marker, pyGet, jsonTruthy]
  have hm2 : resolve_marker env rest = Json.str (generate_marker env.sec env.pid) := by
    simp [resolve_marker, hrest]
  have hne : ("marker" : String) ≠ "content" := by decide
  have hc : pyGet (("marker", Json.str "") :: rest) "content" = pyGet rest "content" := by
    simp [pyGet, hne]
  refine ⟨hm, ?_⟩
  simp only [process_request, hc, hm, hm2]

/-- Witness for C10 at a concrete payload carrying `marker = ""`. -/
theorem c10_falsy_marker_witness :
    resolve_marker denv0 (("marker", Json.str "") :: [("content", Json.str "hi")])
      = Json.str (generate_marker denv0.sec denv0.pid) ∧
    process_request denv0 (Json.obj (("marker", Json.str "") :: [("content", Json.str "hi")])) st0
      = process_request denv0 (Json.obj [("content", Json.str "hi")]) st0 :=
  c10_falsy_marker denv0 [("content", Json.str "hi")] st0 rfl

end MarkerResolution

section DispatchClaims

/-- For a dict payload with a succeeding first history write, dispatch
returns normally and the history gains the sender entry (role `"claude"`)
with the resolved marker and the raw content, possibly followed by a
target entry. -/
theorem process_request_history (env : DispatchEnv) (kvs : List (String × Json))
    (st : BState) (hw : env.hist_fail1 = none) :
    ∃ st2 rest, process_request env (Json.obj kvs) st = Except.ok st2 ∧
      st2.history = st.history ++
        HEntry.mk env.ts_utc "claude" (resolve_marker env kvs)
          ((pyGet kvs "content").getD (Json.str "")) :: rest := by
  simp only [process_request]
  rcases hs : send_attempt env.send_exc ((pyGet kvs "content").getD (Json.str "")) with ⟨d, exc⟩
  cases exc with
  | none =>
    refine ⟨_, [], rfl, ?_⟩
    simp [append_history, hw, log_bridge_history]
  | some e =>
    cases h2 : env.hist_fail2 with
    | none =>
      refine ⟨_, [HEntry.mk env.ts_utc2 "codex" (resolve_marker env kvs)
        (Json.str ("❌ Failed to send to Codex: " ++ e))], rfl, ?_⟩
      simp [append_history, hw, h2, log_bridge_history]
    | some e2 =>
      refine ⟨_, [], rfl, ?_⟩
      simp [append_history, hw, h2, log_bridge_history]

/-- Claim C4: a well-formed request with an explicit non-empty marker
yields a sender history entry whose marker is exactly the provided one
and whose content is the raw request content, unmodified. -/
theorem c4_sender_entry (env : DispatchEnv) (kvs : List (String × Json)) (st : BState)
    (m : String) (hm : pyGet kvs "marker" = some (Json.str m)) (hm0 : m ≠ "")
    (c : Json) (hc : pyGet kvs "content" = some c) (hw : env.hist_fail1 = none) :
    ∃ st2 rest, process_request env (Json.obj kvs) st = Except.ok st2 ∧
      st2.history = st.history ++ HEntry.mk env.ts_utc "claude" (Json.str m) c :: rest := by
  have hmk : resolve_marker env kvs = Json.str m := by
    rw [resolve_marker, hm]
    simp [jsonTruthy, hm0]
  have h := process_request_history env kvs st hw
  rw [hmk, hc] at h
  simpa using h

/-- Witness for C4 at a concrete request carrying marker `"m1"`. -/
theorem c4_sender_entry_witness :
    ∃ st2 rest, process_request denv0
        (Json.obj [("content", Json.str "hello\nworld"), ("marker", Json.str "m1")]) st0
        = Except.ok st2 ∧
      st2.history = st0.history ++
        HEntry.mk denv0.ts_utc "claude" (Json.str "m1") (Json.str "hello\nworld") :: rest :=
  c4_sender_entry denv0 [("content", Json.str "hello\nworld"), ("marker", Json.str "m1")]
    st0 "m1" rfl (by decide) (Json.str "hello\nworld") rfl rfl

/-- Claim C1 (amended to JSON-object payloads): dispatch of a dict
payload always returns normally, and when the backend send raises (with
both history writes succeeding) the history gains the sender entry
followed by a target entry with role `"codex"`, the same marker, and a
content that is the failure indicator followed by the error text, plus a
console message; the backoff and the running flag are untouched. -/
theorem c1_dispatch_never_fails (kvs : List (String × Json)) :
    (∀ env st, ∃ st2, process_request env (Json.obj kvs) st = Except.ok st2) ∧
    (∀ env st s e, env.hist_fail1 = none → env.hist_fail2 = none →
      (pyGet kvs "content").getD (Json.str "") = Json.str s →
      env.send_exc = some e → send_command s ≠ "" →
      ∃ st2, process_request env (Json.obj kvs) st = Except.ok st2 ∧
        st2.history = st.history ++
          [HEntry.mk env.ts_utc "claude" (resolve_marker env kvs) (Json.str s),
           HEntry.mk env.ts_utc2 "codex" (resolve_marker env kvs)
             (Json.str ("❌ Failed to send to Codex: " ++ e))] ∧
        st2.console = st.console ++ ["❌ Failed to send to Codex: " ++ e] ∧
        st2.backoff = st.backoff ∧ st2.running = st.running) := by
  constructor
  · exact fun env st => process_request_obj_total env kvs st
  · intro env st s e h1 h2 hcs hexc hcmd
    have hsa : send_attempt env.send_exc ((pyGet kvs "content").getD (Json.str ""))
        = (none, some e) := by
      rw [hcs, send_attempt, send]
      simp only [if_neg hcmd, hexc]
    simp only [process_request]
    rw [hsa]
    refine ⟨_, rfl, ?_, ?_, ?_, ?_⟩
    · rw [hcs]
      simp [append_history, h1, h2, log_bridge_history]
    · simp [append_history, h1, h2, log_bridge_console]
    · simp [append_history_backoff, log_bridge_backoff]
    · simp [append_history_running, log_bridge_running]

/-- Witness for C1 at a concrete request whose backend send raises. -/
theorem c1_dispatch_never_fails_witness :
    ∃ st2, process_request denvFail (Json.obj [("content", Json.str "hi")]) st0
        = Except.ok st2 ∧
      st2.history = st0.history ++
        [HEntry.mk denvFail.ts_utc "claude"
           (resolve_marker denvFail [("content", Json.str "hi")]) (Json.str "hi"),
         HEntry.mk denvFail.ts_utc2 "codex"
           (resolve_marker denvFail [("content", Json.str "hi")])
           (Json.str ("❌ Failed to send to Codex: " ++ "boom"))] ∧
      st2.console = st0.console ++ ["❌ Failed to send to Codex: " ++ "boom"] ∧
      st2.backoff = st0.backoff ∧ st2.running = st0.running :=
  (c1_dispatch_never_fails [("content", Json.str "hi")]).2 denvFail st0 "hi" "boom"
    rfl rfl rfl rfl (by decide)

/-- Claim C1 counterexample: `json.loads` accepts the line `"42"`, the
reader hands the non-dict payload `42` to dispatch, and dispatch raises
`AttributeError` at `payload.get` instead of returning normally. -/
theorem c1_counterexample :
    read_request (ChanEvent.line (Json.num 42)) = ReadResult.got (Json.num 42) ∧
    process_request denv0 (Json.num 42) st0 = Except.error "AttributeError: get" :=
  ⟨rfl, rfl⟩

end DispatchClaims

section MarkerClaims

theorem digitChar_toNat {d : Nat} (hd : d < 10) : (digitChar d).toNat = 48 + d := by
  have h : ∀ m, m < 10 → (digitChar m).toNat = 48 + m := by decide
  exact h d hd

theorem digitChar_isDigit {d : Nat} (hd : d < 10) : (digitChar d).isDigit = true := by
  have h : ∀ m, m < 10 → (digitChar m).isDigit = true := by decide
  exact h d hd

theorem digitsVal_append (l : List Char) (c : Char) :
    digitsVal (l ++ [c]) = 10 * digitsVal l + (c.toNat - 48) := by
  simp [digitsVal, List.foldl_append]

/-- With enough fuel, reading the rendered digits back recovers the
number. -/
theorem digitsVal_natDigitsAux :
    ∀ fuel n, n < fuel → digitsVal (natDigitsAux fuel n) = n := by
  intro fuel
  induction fuel with
  | zero => intro n h; omega
  | succ fuel ih =>
    intro n h
    unfold natDigitsAux
    by_cases h10 : n < 10
    · rw [if_pos h10]
      have := digitChar_toNat h10
      simp [digitsVal, this]
    · rw [if_neg h10]
      rw [digitsVal_append]
      have hdiv : n / 10 < n := Nat.div_lt_self (by omega) (by omega)
      rw [ih (n / 10) (by omega), digitChar_toNat (Nat.mod_lt n (by omega))]
      omega

theorem digitsVal_natDigits (n : Nat) : digitsVal (natDigits n) = n :=
  digitsVal_natDigitsAux (n + 1) n (Nat.lt_succ_self n)

theorem natDigits_inj {a b : Nat} (h : natDigits a = natDigits b) : a = b := by
  have ha := digitsVal_natDigits a
  have hb := digitsVal_natDigits b
  rw [h] at ha
  omega

theorem natDigitsAux_digits :
    ∀ fuel n, ∀ c ∈ natDigitsAux fuel n, c.isDigit = true := by
  intro fuel
  induction fuel with
  | zero => intro n c h; simp [natDigitsAux] at h
  | succ fuel ih =>
    intro n c h
    unfold natDigitsAux at h
    by_cases h10 : n < 10
    · rw [if_pos h10] at h
      simp at h
      subst h
      exact digitChar_isDigit h10
    · rw [if_neg h10] at h
      rw [List.mem_append] at h
      rcases h with h | h
      · exact ih _ _ h
      · simp at h
        subst h
        exact digitChar_isDigit (Nat.mod_lt n (by omega))

theorem natDigits_digits (n : Nat) : ∀ c ∈ natDigits n, c.isDigit = true :=
  natDigitsAux_digits (n + 1) n

theorem natDigits_ne_nil (n : Nat) : natDigits n ≠ [] := by
  unfold natDigits natDigitsAux
  by_cases h10 : n < 10 <;> simp [h10]

/-- Claim C7 (amended): every generated marker matches
`ask-<digits>-<digits>`, and two generation calls of the same process at
distinct unix seconds yield distinct markers.  (Calls within the same
second yield the same marker, see the counterexample.) -/
theorem c7_marker_shape_and_distinct :
    (∀ sec pid, ∃ d1 d2, d1 ≠ [] ∧ d2 ≠ [] ∧
      (∀ c ∈ d1, c.isDigit = true) ∧ (∀ c ∈ d2, c.isDigit = true) ∧
      (generate_marker sec pid).data = "ask-".data ++ d1 ++ "-".data ++ d2) ∧
    (∀ s1 s2 pid, s1 ≠ s2 → generate_marker s1 pid ≠ generate_marker s2 pid) := by
  constructor
  · intro sec pid
    exact ⟨natDigits sec, natDigits pid, natDigits_ne_nil sec, natDigits_ne_nil pid,
      natDigits_digits sec, natDigits_digits pid, rfl⟩
  · intro s1 s2 pid hne h
    apply hne
    have hd : "ask-".data ++ natDigits s1 ++ "-".data ++ natDigits pid
        = "ask-".data ++ natDigits s2 ++ "-".data ++ natDigits pid :=
      congrArg String.data h
    have h1 : "ask-".data ++ natDigits s1 ++ "-".data
        = "ask-".data ++ natDigits s2 ++ "-".data := List.append_cancel_right hd
    have h2 : "ask-".data ++ natDigits s1 = "ask-".data ++ natDigits s2 :=
      List.append_cancel_right h1
    exact natDigits_inj (List.append_cancel_left h2)

/-- Witness for C7 at two concrete seconds. -/
theorem c7_marker_shape_and_distinct_witness :
    generate_marker 1700000000 4242 ≠ generate_marker 1700000001 4242 :=
  c7_marker_shape_and_distinct.2 1700000000 1700000001 4242 (by decide)

/-- Claim C7 counterexample: two marker-less requests dispatched in the
same unix second of the same process receive identical generated markers,
so generated markers are not pairwise distinct within a run. -/
theorem c7_counterexample :
    (run_bridge cfg0 [envSucc, envSucc]).history.map HEntry.marker
      = [Json.str "ask-1700000000-4242", Json.str "ask-1700000000-4242"] := rfl

end MarkerClaims

section BackoffClaims

/-- With a sane configuration the reset value is exactly the minimum. -/
theorem reset_backoff_eq (cfg : Config) (h0 : 0 ≤ cfg.error_backoff_min)
    (h1 : cfg.error_backoff_min ≤ cfg.error_backoff_max) :
    reset_backoff cfg = cfg.error_backoff_min := by
  rw [reset_backoff, pymin_eq, pymax_eq, min_eq_left h1, max_eq_right h0]

/-- Growth keeps the backoff within bounds, never decreases it, and at
most doubles it. -/
theorem grow_backoff_bounds (cfg : Config) (h0 : 0 ≤ cfg.error_backoff_min)
    (h1 : cfg.error_backoff_min ≤ cfg.error_backoff_max)
    (b : ℚ) (hlo : cfg.error_backoff_min ≤ b) (hhi : b ≤ cfg.error_backoff_max) :
    cfg.error_backoff_min ≤ grow_backoff cfg b ∧ grow_backoff cfg b ≤ cfg.error_backoff_max ∧
      b ≤ grow_backoff cfg b ∧ grow_backoff cfg b ≤ 2 * b := by
  have hb0 : 0 ≤ b := le_trans h0 hlo
  rw [grow_backoff]
  by_cases hmax : cfg.error_backoff_max ≠ 0
  · rw [if_pos hmax, pymin_eq, pymax_eq]
    refine ⟨le_min h1 (le_max_left _ _), min_le_left _ _, ?_, ?_⟩
    · exact le_min hhi (le_trans (by linarith) (le_max_right _ _))
    · exact le_trans (min_le_right _ _) (max_le (by linarith) (by linarith))
  · rw [if_neg hmax]
    push_neg at hmax
    have hb : b = 0 := le_antisymm (hmax ▸ hhi) hb0
    exact ⟨hlo, hhi, le_refl b, by rw [hb]; norm_num⟩

/-- One loop iteration keeps the backoff within `[min, max]`. -/
theorem run_step_backoff_bounds (cfg : Config) (h0 : 0 ≤ cfg.error_backoff_min)
    (h1 : cfg.error_backoff_min ≤ cfg.error_backoff_max) (env : IterEnv) (st : BState)
    (hlo : cfg.error_backoff_min ≤ st.backoff) (hhi : st.backoff ≤ cfg.error_backoff_max) :
    cfg.error_backoff_min ≤ (run_step cfg env st).backoff ∧
      (run_step cfg env st).backoff ≤ cfg.error_backoff_max := by
  have hg := grow_backoff_bounds cfg h0 h1 st.backoff hlo hhi
  unfold run_step
  split
  · split
    · exact ⟨hlo, hhi⟩
    · exact ⟨hlo, hhi⟩
    · rw [(error_step_spec cfg env _ st).1]
      exact ⟨hg.1, hg.2.1⟩
    · split
      · rw [reset_backoff_eq cfg h0 h1]
        exact ⟨le_refl _, h1⟩
      · rw [(error_step_spec cfg env _ st).1]
        exact ⟨hg.1, hg.2.1⟩
  · exact ⟨hlo, hhi⟩

/-- The whole fold keeps the backoff within `[min, max]`. -/
theorem run_fold_backoff_bounds (cfg : Config) (h0 : 0 ≤ cfg.error_backoff_min)
    (h1 : cfg.error_backoff_min ≤ cfg.error_backoff_max) :
    ∀ (envs : List IterEnv) (st : BState),
      cfg.error_backoff_min ≤ st.backoff → st.backoff ≤ cfg.error_backoff_max →
      cfg.error_backoff_min ≤ (envs.foldl (fun s e => run_step cfg e s) st).backoff ∧
        (envs.foldl (fun s e => run_step cfg e s) st).backoff ≤ cfg.error_backoff_max := by
  intro envs
  induction envs with
  | nil => intro st hlo hhi; exact ⟨hlo, hhi⟩
  | cons e es ih =>
    intro st hlo hhi
    have h := run_step_backoff_bounds cfg h0 h1 e st hlo hhi
    exact ih _ h.1 h.2

/-- An iteration that reads a payload and dispatches it without an
escaping exception resets the backoff. -/
theorem run_step_success_reset (cfg : Config) (env : IterEnv) (st : BState) (p : Json)
    (hrun : st.running = true) (hc : read_request env.chan = ReadResult.got p)
    (hok : ∃ st2, process_request env.denv p st = Except.ok st2) :
    (run_step cfg env st).backoff = reset_backoff cfg := by
  obtain ⟨st2, h2⟩ := hok
  simp [run_step, hrun, hc, h2]

/-- Claim C2 (amended: requires min ≤ max, as the defaults satisfy):
along every run of the loop the backoff stays within `[min, max]` (when
max ≠ 0, i.e. backoff enabled), and an iteration that dispatches a
request successfully resets the backoff to exactly min. -/
theorem c2_backoff_invariant (cfg : Config) (h0 : 0 ≤ cfg.error_backoff_min)
    (h1 : cfg.error_backoff_min ≤ cfg.error_backoff_max) :
    (∀ envs, cfg.error_backoff_max ≠ 0 →
      cfg.error_backoff_min ≤ (run_bridge cfg envs).backoff ∧
        (run_bridge cfg envs).backoff ≤ cfg.error_backoff_max) ∧
    (∀ env st p, st.running = true → read_request env.chan = ReadResult.got p →
      (∃ st2, process_request env.denv p st = Except.ok st2) →
      (run_step cfg env st).backoff = cfg.error_backoff_min) := by
  have hinit : (init_state cfg).backoff = cfg.error_backoff_min :=
    reset_backoff_eq cfg h0 h1
  constructor
  · intro envs _
    exact run_fold_backoff_bounds cfg h0 h1 envs (init_state cfg)
      (le_of_eq hinit.symm) (by rw [hinit]; exact h1)
  · intro env st p hrun hc hok
    rw [run_step_success_reset cfg env st p hrun hc hok, reset_backoff_eq cfg h0 h1]

/-- Witness for C2 under the sane configuration `cfg0`. -/
theorem c2_backoff_invariant_witness :
    (cfg0.error_backoff_min ≤ (run_bridge cfg0 [envErr]).backoff ∧
      (run_bridge cfg0 [envErr]).backoff ≤ cfg0.error_backoff_max) ∧
    (run_step cfg0 envSucc st0).backoff = cfg0.error_backoff_min :=
  ⟨(c2_backoff_invariant cfg0 (by decide) (by decide)).1 [envErr] (by decide),
   (c2_backoff_invariant cfg0 (by decide) (by decide)).2 envSucc st0 payHi rfl rfl ⟨_, rfl⟩⟩

/-- Claim C2 counterexample: the legal configuration min=5, max=2
(max ≠ 0, so backoff is not disabled) violates min ≤ current from the
very first state of the run: the backoff starts at 2 < 5. -/
theorem c2_counterexample :
    cfgBad.error_backoff_max ≠ 0 ∧
      ¬ cfgBad.error_backoff_min ≤ (run_bridge cfgBad []).backoff := by
  constructor <;> decide

/-- Consecutive error iterations keep the flag up and append exactly the
sleeps described by `errSleepsSeq`. -/
theorem error_run_spec (cfg : Config) :
    ∀ es : List IterEnv, (∀ env ∈ es, IsErrEnv env) → ∀ st : BState, st.running = true →
      (es.foldl (fun s e => run_step cfg e s) st).running = true ∧
      (es.foldl (fun s e => run_step cfg e s) st).err_sleeps
        = st.err_sleeps ++ errSleepsSeq cfg es.length st.backoff := by
  intro es
  induction es with
  | nil => intro _ st hrun; exact ⟨hrun, by simp [errSleepsSeq]⟩
  | cons env es ih =>
    intro herr st hrun
    obtain ⟨e, hc⟩ := herr env (List.mem_cons_self env es)
    have hstep : run_step cfg env st = error_step cfg env e st := by
      simp [run_step, hrun, hc]
    have hspec := error_step_spec cfg env e st
    have hrun1 : (error_step cfg env e st).running = true := by rw [hspec.2.2.1]; exact hrun
    have ihres := ih (fun x hx => herr x (List.mem_cons_of_mem env hx))
      (error_step cfg env e st) hrun1
    rw [List.foldl_cons, hstep]
    refine ⟨ihres.1, ?_⟩
    rw [ihres.2, hspec.2.1, hspec.1]
    simp [errSleepsSeq, List.append_assoc]

theorem sleepsOk_cons (bmax b : ℚ) (l : List ℚ) (hl : sleepsOk bmax l)
    (hhead : ∀ t, l.head? = some t → b ≤ t ∧ t ≤ 2 * b) (hb : b ≤ bmax) :
    sleepsOk bmax (b :: l) := by
  cases l with
  | nil => exact hb
  | cons t rest =>
    have ht := hhead t rfl
    exact ⟨hb, ht.1, ht.2, hl⟩

theorem errSleepsSeq_head (cfg : Config) (k : Nat) (b t : ℚ) (hb : b ≠ 0)
    (h : (errSleepsSeq cfg k b).head? = some t) : t = b := by
  cases k with
  | zero => simp [errSleepsSeq] at h
  | succ k =>
    rw [errSleepsSeq, if_pos hb] at h
    simp at h
    exact h.symm

/-- The sleep sequence of consecutive errors is non-decreasing, at most
doubling, and capped at the maximum. -/
theorem errSleepsSeq_ok (cfg : Config) (h0 : 0 ≤ cfg.error_backoff_min)
    (h1 : cfg.error_backoff_min ≤ cfg.error_backoff_max) :
    ∀ k b, cfg.error_backoff_min ≤ b → b ≤ cfg.error_backoff_max →
      sleepsOk cfg.error_backoff_max (errSleepsSeq cfg k b) := by
  intro k
  induction k with
  | zero => intro b _ _; rw [errSleepsSeq]; trivial
  | succ k ih =>
    intro b hlo hhi
    have hg := grow_backoff_bounds cfg h0 h1 b hlo hhi
    by_cases hb : b = 0
    · rw [errSleepsSeq, if_neg (by simpa using hb), List.nil_append]
      exact ih (grow_backoff cfg b) hg.1 hg.2.1
    · rw [errSleepsSeq, if_pos hb, List.singleton_append]
      have hbpos : 0 < b := lt_of_le_of_ne (le_trans h0 hlo) (Ne.symm hb)
      apply sleepsOk_cons
      · exact ih (grow_backoff cfg b) hg.1 hg.2.1
      · intro t ht
        have hgne : grow_backoff cfg b ≠ 0 :=
          ne_of_gt (lt_of_lt_of_le hbpos hg.2.2.1)
        rw [errSleepsSeq_head cfg k (grow_backoff cfg b) t hgne ht]
        exact ⟨hg.2.2.1, hg.2.2.2⟩
      · exact hhi

/-- Claim C3 (amended: requires min ≤ max, as the defaults satisfy):
over any stretch of consecutive loop-body errors the performed backoff
sleeps are non-decreasing, each at most double its predecessor, each
capped at max; and an iteration that then dispatches a request
successfully resets the backoff — the seed of all later sleeps — to
exactly min. -/
theorem c3_backoff_progression (cfg : Config) (h0 : 0 ≤ cfg.error_backoff_min)
    (h1 : cfg.error_backoff_min ≤ cfg.error_backoff_max)
    (st : BState) (hrun : st.running = true)
    (hlo : cfg.error_backoff_min ≤ st.backoff) (hhi : st.backoff ≤ cfg.error_backoff_max)
    (es : List IterEnv) (herr : ∀ env ∈ es, IsErrEnv env) :
    sleepsOk cfg.error_backoff_max
      ((es.foldl (fun s e => run_step cfg e s) st).err_sleeps.drop st.err_sleeps.length) ∧
    (∀ env p, read_request env.chan = ReadResult.got p →
      (∃ st2, process_request env.denv p (es.foldl (fun s e => run_step cfg e s) st)
          = Except.ok st2) →
      (run_step cfg env (es.foldl (fun s e => run_step cfg e s) st)).backoff
        = cfg.error_backoff_min) := by
  obtain ⟨hruns, hsleeps⟩ := error_run_spec cfg es herr st hrun
  constructor
  · rw [hsleeps, List.drop_left]
    exact errSleepsSeq_ok cfg h0 h1 es.length st.backoff hlo hhi
  · intro env p hc hok
    rw [run_step_success_reset cfg env _ p hruns hc hok, reset_backoff_eq cfg h0 h1]

/-- Witness for C3: three consecutive channel-read failures under `cfg0`,
then a successful dispatch. -/
theorem c3_backoff_progression_witness :
    sleepsOk cfg0.error_backoff_max
      (([envErr, envErr, envErr].foldl (fun s e => run_step cfg0 e s) st0).err_sleeps.drop
        st0.err_sleeps.length) ∧
    (run_step cfg0 envSucc
        ([envErr, envErr, envErr].foldl (fun s e => run_step cfg0 e s) st0)).backoff
      = cfg0.error_backoff_min := by
  have h := c3_backoff_progression cfg0 (by decide) (by decide) st0 rfl (by decide) (by decide)
    [envErr, envErr, envErr]
    (by
      intro env henv
      simp only [List.mem_cons, List.not_mem_nil, or_false] at henv
      rcases henv with h | h | h <;> subst h <;> exact ⟨"boom", rfl⟩)
  exact ⟨h.1, h.2 envSucc payHi rfl ⟨_, rfl⟩⟩

/-- Claim C3 counterexample: with the legal configuration min=5, max=2,
after an error iteration a successful dispatch leaves the backoff at 2,
not at min = 5; the run [error, success, error] therefore sleeps 2, not
min, in its final error iteration. -/
theorem c3_counterexample :
    (run_bridge cfgBad [envErr, envSucc]).backoff ≠ cfgBad.error_backoff_min ∧
      (run_bridge cfgBad [envErr, envSucc, envErr]).err_sleeps = [2, 2] := by
  constructor
  · decide
  · rfl

end BackoffClaims

end CodexBridge
